import Mathlib

/-!
Verification development for the parse-redux current-identity cache and
persistence coordinator (src/ParseUser.js) and the redux action creators
(src/redux/action-creators.js).

The coordinator state (module-level variables of ParseUser.js) is embedded
as an explicit record `Parse.CoordState`; every operation returns its
result, the successor state and an ordered trace of the observable effects
it performs (dispatches to the redux store, in-memory cache writes,
persistent-store accesses, REST requests). Asynchronous persistent writes
are split into their synchronous initiation and their settlement, so that
statements about "before the write settles" are expressible. JavaScript
truthiness on optional strings is modelled by `Parse.truthyStr`. The
persistent slot holds the parsed snapshot directly (`Option UserData`):
JSON (de)serialisation is external to this core, and a missing or falsy
stored string is `none`.
-/

namespace Parse

/-- JavaScript truthiness of an optional string: `undefined`/`null` and the
empty string are falsy, every other string is truthy. -/
def truthyStr : Option String → Bool
  | none => false
  | some s => s ≠ ""

/-- The fields of a persisted current-user snapshot that the load path of
`DefaultController.currentUser` / `currentUserAsync` inspects, plus `other`
standing for all remaining attributes (carried through untouched). -/
structure UserData where
  className : Option String
  legacyId : Option String
  objectId : Option String
  legacySessionToken : Option String
  sessionToken : Option String
  other : List (String × String)
deriving DecidableEq

/-- The legacy-field normalisation both read paths apply to a loaded
snapshot (ParseUser.js lines 777-790 and 814-827):
`if (!userData.className) userData.className = "_User";`
`if (userData._id) { if (userData.objectId !== userData._id) userData.objectId = userData._id; delete userData._id; }`
`if (userData._sessionToken) { userData.sessionToken = userData._sessionToken; delete userData._sessionToken; }` -/
def normalizeUserData (d : UserData) : UserData :=
  let d := if truthyStr d.className then d else { d with className := some "_User" }
  let d :=
    if truthyStr d.legacyId then
      let d := if d.objectId ≠ d.legacyId then { d with objectId := d.legacyId } else d
      { d with legacyId := none }
    else d
  let d :=
    if truthyStr d.legacySessionToken then
      { d with sessionToken := d.legacySessionToken, legacySessionToken := none }
    else d
  d

/-- Observable effects of a coordinator operation, in program order.
`dispatchSetUser u` is `Store.dispatch(Actions.set(u))`; `cacheWrite u` is
the assignment to the private in-memory cache variable; `storeGet`,
`storeSet`, `storeRemove` are the persistent-store accesses at the
current-user path; `restRequest method path` is a network request. -/
inductive Event (U : Type) where
  | dispatchSetUser : Option U → Event U
  | cacheWrite : Option U → Event U
  | storeGet : Event U
  | storeSet : UserData → Event U
  | storeRemove : Event U
  | restRequest : String → String → Event U
deriving DecidableEq

/-- The module-level state of ParseUser.js: the in-memory current-user
cache, the `currentUserCacheMatchesDisk` flag, the persistent-store slot at
the current-user path, whether the storage controller is asynchronous
(`Storage.async()`), and the `canUseCurrentUser` flag (false by default in
a Node environment). `U` is the type of user objects; construction of a
user from a snapshot (`ParseObject.fromJSON`) and serialisation of a user
(`user.toJSON()`) are external collaborators passed in as parameters. -/
structure CoordState (U : Type) where
  currentUserCache : Option U
  currentUserCacheMatchesDisk : Bool
  storage : Option UserData
  storageAsync : Bool
  canUseCurrentUser : Bool
deriving DecidableEq

/-- `currentUserCache.set(user)` (ParseUser.js lines 40-43): dispatch the
action through the redux store, then write the in-memory cache. -/
def cacheSet {U : Type} (s : CoordState U) (u : Option U) :
    CoordState U × List (Event U) :=
  ({ s with currentUserCache := u }, [Event.dispatchSetUser u, Event.cacheWrite u])

/-- `DefaultController.currentUser` (lines 756-795): synchronous read of
the current identity. Returns the result (or the thrown error message),
the successor state and the effect trace. The call
`current._synchronizeAllAuthData()` on the loaded user is an entity-layer
collaborator with no coordinator state and is not modelled. -/
def currentUser {U : Type} (fromJSON : UserData → U) (s : CoordState U) :
    Except String (Option U) × CoordState U × List (Event U) :=
  match s.currentUserCache with
  | some cache => (Except.ok (some cache), s, [])
  | none =>
    if s.currentUserCacheMatchesDisk then
      (Except.ok none, s, [])
    else if s.storageAsync then
      (Except.error "Cannot call currentUser() when using a platform with an async storage system. Call currentUserAsync() instead.", s, [])
    else
      let userData := s.storage
      let s1 := { s with currentUserCacheMatchesDisk := true }
      match userData with
      | none =>
        let (s2, t) := cacheSet s1 none
        (Except.ok none, s2, Event.storeGet :: t)
      | some d =>
        let current := fromJSON (normalizeUserData d)
        let (s2, t) := cacheSet s1 (some current)
        (Except.ok (some current), s2, Event.storeGet :: t)

/-- `DefaultController.currentUserAsync` (lines 797-833): asynchronous read
of the current identity; the returned value is the resolution of the
promise. -/
def currentUserAsync {U : Type} (fromJSON : UserData → U) (s : CoordState U) :
    Option U × CoordState U × List (Event U) :=
  match s.currentUserCache with
  | some cache => (some cache, s, [])
  | none =>
    if s.currentUserCacheMatchesDisk then
      (none, s, [])
    else
      match s.storage with
      | none =>
        let s1 := { s with currentUserCacheMatchesDisk := true }
        let (s2, t) := cacheSet s1 none
        (none, s2, Event.storeGet :: t)
      | some d =>
        let s1 := { s with currentUserCacheMatchesDisk := true }
        let current := fromJSON (normalizeUserData d)
        let (s2, t) := cacheSet s1 (some current)
        (some current, s2, Event.storeGet :: t)

/-- `DefaultController.updateUserOnDisk` (lines 738-747), settled: the
serialised snapshot of the user, tagged `className = "_User"`, is written
to the persistent slot. `toJSON` is the external serialisation of the
entity layer. -/
def updateUserOnDiskSettle {U : Type} (toJSON : U → UserData) (s : CoordState U)
    (user : U) : CoordState U :=
  { s with storage := some { toJSON user with className := some "_User" } }

/-- The part of `DefaultController.setCurrentUser` (lines 749-754) that
executes synchronously, before the persistent write settles: the in-memory
cache is set (dispatch first), auth data is cleaned up and synchronised
(entity-layer collaborators, no coordinator state), and the persistent
write is initiated (`storeSet` appears in the trace, but `storage` is not
yet updated). -/
def setCurrentUserSync {U : Type} (toJSON : U → UserData) (s : CoordState U)
    (user : U) : CoordState U × List (Event U) :=
  let (s1, t1) := cacheSet s (some user)
  (s1, t1 ++ [Event.storeSet { toJSON user with className := some "_User" }])

/-- `DefaultController.setCurrentUser` in full, with the persistent write
settled (the promise it returns resolves only after the write). -/
def setCurrentUser {U : Type} (toJSON : U → UserData) (s : CoordState U)
    (user : U) : CoordState U × List (Event U) :=
  let (s1, t1) := setCurrentUserSync toJSON s user
  (updateUserOnDiskSettle toJSON s1 user, t1)

/-- The asynchronous operations chained into the promise a coordinator
operation returns: the promise settles only after each of them settles, in
order, and a failure of any of them rejects it. -/
inductive AsyncOp where
  | storeRemove
  | restLogout
deriving DecidableEq

/-- `DefaultController.logOut` (lines 906-928). Reads the current user via
`currentUserAsync`, initiates removal of the persistent entry, chains a
best-effort revocable-session invalidation request onto the returned
promise when the session token is truthy and revocable, then sets
`currentUserCacheMatchesDisk = true` and clears the in-memory cache.
Returns the state with the removal settled, the synchronous effect trace,
and the list of asynchronous operations the returned promise awaits (the
chained REST request runs only after the removal settles, so it appears in
that list rather than in the synchronous trace). `getSessionToken` and
`isRevocableSession` are external collaborators. -/
def logOut {U : Type} (fromJSON : UserData → U) (getSessionToken : U → Option String)
    (isRevocableSession : String → Bool) (s : CoordState U) :
    CoordState U × List (Event U) × List AsyncOp :=
  let (cu, s1, t1) := currentUserAsync fromJSON s
  let s2 := { s1 with storage := none }
  let blocked := [AsyncOp.storeRemove]
  let blocked :=
    match cu with
    | none => blocked
    | some theUser =>
      match getSessionToken theUser with
      | none => blocked
      | some currentSession =>
        if currentSession ≠ "" && isRevocableSession currentSession then
          blocked ++ [AsyncOp.restLogout]
        else blocked
  let s3 := { s2 with currentUserCacheMatchesDisk := true }
  let (s4, t2) := cacheSet s3 none
  (s4, t1 ++ Event.storeRemove :: t2, blocked)

/-- `ParseUser.current` (lines 495-501): returns null without consulting
the controller when current-user use is disabled. -/
def ParseUser_current {U : Type} (fromJSON : UserData → U) (s : CoordState U) :
    Except String (Option U) × CoordState U × List (Event U) :=
  if s.canUseCurrentUser then currentUser fromJSON s
  else (Except.ok none, s, [])

/-- `ParseUser.currentAsync` (lines 510-516): resolves with null without
consulting the controller when current-user use is disabled. -/
def ParseUser_currentAsync {U : Type} (fromJSON : UserData → U) (s : CoordState U) :
    Option U × CoordState U × List (Event U) :=
  if s.canUseCurrentUser then currentUserAsync fromJSON s
  else (none, s, [])

/-- `DefaultController.become` (lines 894-904): a GET to users/me, the
response fetched into a fresh user (entity layer, passed in as `fetched`),
then `setCurrentUser`. -/
def DefaultController_become {U : Type} (toJSON : U → UserData) (fetched : U)
    (s : CoordState U) : CoordState U × List (Event U) :=
  let (s1, t1) := setCurrentUser toJSON s fetched
  (s1, Event.restRequest "GET" "users/me" :: t1)

/-- `ParseUser.become` (lines 578-595): throws before doing anything when
current-user use is disabled. -/
def ParseUser_become {U : Type} (toJSON : U → UserData) (fetched : U)
    (s : CoordState U) : Except String (CoordState U × List (Event U)) :=
  if s.canUseCurrentUser then Except.ok (DefaultController_become toJSON fetched s)
  else Except.error "It is not memory-safe to become a user in a server environment"

/-- `ParseUser.logOut` (lines 610-619): throws before doing anything when
current-user use is disabled. -/
def ParseUser_logOut {U : Type} (fromJSON : UserData → U)
    (getSessionToken : U → Option String) (isRevocableSession : String → Bool)
    (s : CoordState U) :
    Except String (CoordState U × List (Event U) × List AsyncOp) :=
  if s.canUseCurrentUser then
    Except.ok (logOut fromJSON getSessionToken isRevocableSession s)
  else Except.error "There is no current user user on a node.js server environment."

/-- `ParseUser._clearCache` (lines 725-728): clear the in-memory cache
through the dispatcher and drop the disk-coherency flag. -/
def ParseUser_clearCache {U : Type} (s : CoordState U) :
    CoordState U × List (Event U) :=
  let (s1, t) := cacheSet s none
  ({ s1 with currentUserCacheMatchesDisk := false }, t)

/-- `ParseUser._setCurrentUserCache` (lines 730-732). -/
def ParseUser_setCurrentUserCache {U : Type} (s : CoordState U) (user : U) :
    CoordState U × List (Event U) :=
  cacheSet s (some user)

/-- The dispatcher vocabulary of src/redux/action-creators.js: the tags of
the tagged commands. -/
inductive ActionType where
  | INITIALIZE_STATE
  | REMOVE_STATE
  | SET_SERVER_DATA
  | SET_PENDING_OP
  | PUSH_PENDING_STATE
  | POP_PENDING_STATE
  | MERGE_FIRST_PENDING_STATE
  | COMMIT_SERVER_CHANGES
  | ENQUEUE_TASK
  | CLEAR_ALL_STATE
deriving DecidableEq

/-- A tagged command: `{ type, payload }` where `payload` is the
`arguments` object of the creator call, modelled as the list of arguments
(`α` is the type of a single argument). -/
structure Action (α : Type) where
  type : ActionType
  payload : List α
deriving DecidableEq

namespace ActionCreators

def initializeState {α : Type} (args : List α) : Action α :=
  { type := ActionType.INITIALIZE_STATE, payload := args }

def removeState {α : Type} (args : List α) : Action α :=
  { type := ActionType.REMOVE_STATE, payload := args }

def setServerData {α : Type} (args : List α) : Action α :=
  { type := ActionType.SET_SERVER_DATA, payload := args }

def setPendingOp {α : Type} (args : List α) : Action α :=
  { type := ActionType.SET_PENDING_OP, payload := args }

def pushPendingState {α : Type} (args : List α) : Action α :=
  { type := ActionType.PUSH_PENDING_STATE, payload := args }

def popPendingState {α : Type} (args : List α) : Action α :=
  { type := ActionType.POP_PENDING_STATE, payload := args }

def mergeFirstPendingState {α : Type} (args : List α) : Action α :=
  { type := ActionType.MERGE_FIRST_PENDING_STATE, payload := args }

def commitServerChanges {α : Type} (args : List α) : Action α :=
  { type := ActionType.COMMIT_SERVER_CHANGES, payload := args }

def enqueueTask {α : Type} (args : List α) : Action α :=
  { type := ActionType.ENQUEUE_TASK, payload := args }

def clearAllState {α : Type} (args : List α) : Action α :=
  { type := ActionType.CLEAR_ALL_STATE, payload := args }

end ActionCreators

/-- In a trace, every in-memory cache write is immediately preceded by the
dispatch, through the redux store, of the action carrying the same value. -/
def dispatchPrecedesWrite {U : Type} : List (Event U) → Prop
  | [] => True
  | Event.cacheWrite _ :: _ => False
  | Event.dispatchSetUser u :: Event.cacheWrite v :: rest =>
      u = v ∧ dispatchPrecedesWrite rest
  | _ :: rest => dispatchPrecedesWrite rest

/-- A user object as the entity layer holds it: the last-known server
attribute snapshot and the stack of pending operation sets (oldest first,
the top set is the last). Attribute maps are total functions to optional
values, matching one-key-one-value JavaScript objects. `α` is the type of
attribute values, `op` the type of pending operations. -/
structure UserObj (α op : Type) where
  serverData : String → Option α
  pendingOps : List (String → Option op)

/-- Apply `f` to the last element of a list, if any. -/
def modifyLast {β : Type} (f : β → β) : List β → List β
  | [] => []
  | [b] => [f b]
  | a :: b :: rest => a :: modifyLast f (b :: rest)

/-- The top (newest) pending operation set, empty when there is none. -/
def topPending {α op : Type} (u : UserObj α op) : String → Option op :=
  match u.pendingOps.getLast? with
  | some p => p
  | none => fun _ => none

/-- Modelled from the spec: the merge `_finishFetch` applies to the server
snapshot (the ObjectState module is not part of this repository snapshot;
spec section 4.1, `setServerData`): shallow-merge the given attributes into
`serverData`, where an attribute explicitly present with the undefined
marker (`some none`) deletes the key rather than setting it. The outer
`none` means the key is absent from the argument object. -/
def finishFetch {α op : Type} (attrs : String → Option (Option α))
    (u : UserObj α op) : UserObj α op :=
  { u with
    serverData := fun k =>
      match attrs k with
      | some (some v) => some v
      | some none => none
      | none => u.serverData k }

/-- Modelled from the spec: `ObjectState.setPendingOp` (spec section 4.1):
write into the top pending operation set; an undefined operation (`none`)
deletes the key at that attribute. -/
def setPendingOp {α op : Type} (attr : String) (o : Option op)
    (u : UserObj α op) : UserObj α op :=
  { u with
    pendingOps := modifyLast (fun p k => if k = attr then o else p k) u.pendingOps }

/-- The continuation `DefaultController.signUp` runs once the save
succeeds (lines 856-864): `user._finishFetch({ password: undefined })`
clears the password field. -/
def signUpAfterSave {α op : Type} (u : UserObj α op) : UserObj α op :=
  finishFetch (fun k => if k = "password" then some none else none) u

/-- The continuation `DefaultController.logIn` runs on the login response
(lines 875-891): clear the pending operations for username and password,
erase the password from the server response, then apply the response via
`_finishFetch`. (`_migrateId` and `_setExisted` concern object identity
bookkeeping outside this state.) -/
def logInAfterResponse {α op : Type} (response : String → Option (Option α))
    (u : UserObj α op) : UserObj α op :=
  let u1 := setPendingOp "username" none u
  let u2 := setPendingOp "password" none u1
  let response1 : String → Option (Option α) :=
    fun k => if k = "password" then some none else response k
  finishFetch response1 u2

/-! ## Sample data used by witnesses and counterexamples -/

/-- A sample already-constructed user snapshot with a revocable-style
session token. -/
def dU : UserData :=
  { className := some "_User", legacyId := none, objectId := some "u1",
    legacySessionToken := none, sessionToken := some "r:tok", other := [] }

/-- A sample persisted snapshot carrying both legacy fields. -/
def dLegacy : UserData :=
  { className := none, legacyId := some "u2", objectId := some "old",
    legacySessionToken := some "s:2", sessionToken := none, other := [("a", "b")] }

/-- A sample persisted snapshot whose legacy id is the empty string
(falsy in JavaScript). -/
def dEmptyId : UserData :=
  { className := some "_User", legacyId := some "", objectId := none,
    legacySessionToken := none, sessionToken := none, other := [] }

/-- A populated-cache state. -/
def sCached : CoordState UserData :=
  { currentUserCache := some dU, currentUserCacheMatchesDisk := false,
    storage := some dLegacy, storageAsync := false, canUseCurrentUser := true }

/-- An empty-cache state whose cache is already authoritative. -/
def sMatched : CoordState UserData :=
  { currentUserCache := none, currentUserCacheMatchesDisk := true,
    storage := some dLegacy, storageAsync := false, canUseCurrentUser := true }

/-- An unknown state over a synchronous store holding a legacy snapshot. -/
def sUnknown : CoordState UserData :=
  { currentUserCache := none, currentUserCacheMatchesDisk := false,
    storage := some dLegacy, storageAsync := false, canUseCurrentUser := true }

/-- An unknown state over an asynchronous-only store. -/
def sAsyncOnly : CoordState UserData :=
  { currentUserCache := none, currentUserCacheMatchesDisk := false,
    storage := none, storageAsync := true, canUseCurrentUser := true }

/-- A state in which current-user use is disabled, as in a Node/server
environment or after disableUnsafeCurrentUser. -/
def sDisabled : CoordState UserData :=
  { currentUserCache := some dU, currentUserCacheMatchesDisk := false,
    storage := some dLegacy, storageAsync := false, canUseCurrentUser := false }

/-! ## Helper lemmas -/

/-- The state logOut leaves behind is the state its internal
`currentUserAsync` read leaves, with the persistent entry removed, the
coherency flag set and the in-memory cache cleared. -/
theorem logOut_state {U : Type} (fromJSON : UserData → U)
    (getSessionToken : U → Option String) (isRevocableSession : String → Bool)
    (s : CoordState U) :
    (logOut fromJSON getSessionToken isRevocableSession s).1 =
      { (currentUserAsync fromJSON s).2.1 with
          storage := none,
          currentUserCacheMatchesDisk := true,
          currentUserCache := none } := by
  rcases hq : currentUserAsync fromJSON s with ⟨cu, s1, t1⟩
  simp [logOut, hq, cacheSet]

/-- The synchronous effect trace of logOut: the trace of its internal
read, then the removal of the persistent entry, then the dispatched
clearing of the in-memory cache. -/
theorem logOut_trace {U : Type} (fromJSON : UserData → U)
    (getSessionToken : U → Option String) (isRevocableSession : String → Bool)
    (s : CoordState U) :
    (logOut fromJSON getSessionToken isRevocableSession s).2.1 =
      (currentUserAsync fromJSON s).2.2 ++
        [Event.storeRemove, Event.dispatchSetUser none, Event.cacheWrite none] := by
  rcases hq : currentUserAsync fromJSON s with ⟨cu, s1, t1⟩
  simp [logOut, hq, cacheSet]

/-! ## Claims -/

/-- C1: every read of the current identity, synchronous or asynchronous,
behaves as follows. With a populated memory cache, the cached user is
returned with an empty effect trace and unchanged state. With an empty
cache and `cacheMatchesDisk` true, absent is returned with an empty effect
trace and unchanged state. Otherwise the persistent store is read
(`storeGet` in the trace), `cacheMatchesDisk` becomes true, and the memory
cache is populated from the stored value, or cleared to none when the
store holds nothing; the synchronous path does so when the store is
synchronous. -/
theorem C1_read_paths {U : Type} (fromJSON : UserData → U) (s : CoordState U) :
    (∀ u, s.currentUserCache = some u →
      currentUser fromJSON s = (Except.ok (some u), s, []) ∧
      currentUserAsync fromJSON s = (some u, s, [])) ∧
    (s.currentUserCache = none → s.currentUserCacheMatchesDisk = true →
      currentUser fromJSON s = (Except.ok none, s, []) ∧
      currentUserAsync fromJSON s = (none, s, [])) ∧
    (s.currentUserCache = none → s.currentUserCacheMatchesDisk = false →
      (s.storage = none →
        currentUserAsync fromJSON s =
          (none,
           { s with currentUserCacheMatchesDisk := true, currentUserCache := none },
           [Event.storeGet, Event.dispatchSetUser none, Event.cacheWrite none]) ∧
        (s.storageAsync = false →
          currentUser fromJSON s =
            (Except.ok none,
             { s with currentUserCacheMatchesDisk := true, currentUserCache := none },
             [Event.storeGet, Event.dispatchSetUser none, Event.cacheWrite none]))) ∧
      (∀ d, s.storage = some d →
        currentUserAsync fromJSON s =
          (some (fromJSON (normalizeUserData d)),
           { s with currentUserCacheMatchesDisk := true,
                    currentUserCache := some (fromJSON (normalizeUserData d)) },
           [Event.storeGet,
            Event.dispatchSetUser (some (fromJSON (normalizeUserData d))),
            Event.cacheWrite (some (fromJSON (normalizeUserData d)))]) ∧
        (s.storageAsync = false →
          currentUser fromJSON s =
            (Except.ok (some (fromJSON (normalizeUserData d))),
             { s with currentUserCacheMatchesDisk := true,
                      currentUserCache := some (fromJSON (normalizeUserData d)) },
             [Event.storeGet,
              Event.dispatchSetUser (some (fromJSON (normalizeUserData d))),
              Event.cacheWrite (some (fromJSON (normalizeUserData d)))])))) := by
  obtain ⟨c, m, st, a, cup⟩ := s
  refine ⟨?_, ?_, ?_⟩
  · rintro u rfl
    exact ⟨rfl, rfl⟩
  · rintro rfl rfl
    exact ⟨rfl, rfl⟩
  · rintro rfl rfl
    refine ⟨?_, ?_⟩
    · rintro rfl
      refine ⟨rfl, ?_⟩
      rintro rfl
      rfl
    · rintro d rfl
      refine ⟨rfl, ?_⟩
      rintro rfl
      rfl

/-- C3: from every starting state, logOut removes the persisted
current-user entry, clears the in-memory cache and sets the coherency
flag, and a read of the current identity issued immediately afterwards,
synchronous or asynchronous, returns absent with an empty effect trace (no
persistent-store access). -/
theorem C3_logout_clears_and_reads_absent {U : Type} (fromJSON : UserData → U)
    (getSessionToken : U → Option String) (isRevocableSession : String → Bool)
    (s : CoordState U) :
    (logOut fromJSON getSessionToken isRevocableSession s).1.currentUserCache = none ∧
    (logOut fromJSON getSessionToken isRevocableSession s).1.currentUserCacheMatchesDisk = true ∧
    (logOut fromJSON getSessionToken isRevocableSession s).1.storage = none ∧
    currentUser fromJSON (logOut fromJSON getSessionToken isRevocableSession s).1 =
      (Except.ok none, (logOut fromJSON getSessionToken isRevocableSession s).1, []) ∧
    currentUserAsync fromJSON (logOut fromJSON getSessionToken isRevocableSession s).1 =
      (none, (logOut fromJSON getSessionToken isRevocableSession s).1, []) := by
  rw [logOut_state]
  exact ⟨rfl, rfl, rfl, rfl, rfl⟩

/-- C7: every action creator of src/redux/action-creators.js returns a
tagged command whose type is the corresponding tag of the dispatcher
vocabulary and whose payload is exactly the arguments it was called
with. -/
theorem C7_action_creators_tag_and_payload {α : Type} (args : List α) :
    (ActionCreators.initializeState args).type = ActionType.INITIALIZE_STATE ∧
    (ActionCreators.initializeState args).payload = args ∧
    (ActionCreators.removeState args).type = ActionType.REMOVE_STATE ∧
    (ActionCreators.removeState args).payload = args ∧
    (ActionCreators.setServerData args).type = ActionType.SET_SERVER_DATA ∧
    (ActionCreators.setServerData args).payload = args ∧
    (ActionCreators.setPendingOp args).type = ActionType.SET_PENDING_OP ∧
    (ActionCreators.setPendingOp args).payload = args ∧
    (ActionCreators.pushPendingState args).type = ActionType.PUSH_PENDING_STATE ∧
    (ActionCreators.pushPendingState args).payload = args ∧
    (ActionCreators.popPendingState args).type = ActionType.POP_PENDING_STATE ∧
    (ActionCreators.popPendingState args).payload = args ∧
    (ActionCreators.mergeFirstPendingState args).type = ActionType.MERGE_FIRST_PENDING_STATE ∧
    (ActionCreators.mergeFirstPendingState args).payload = args ∧
    (ActionCreators.commitServerChanges args).type = ActionType.COMMIT_SERVER_CHANGES ∧
    (ActionCreators.commitServerChanges args).payload = args ∧
    (ActionCreators.enqueueTask args).type = ActionType.ENQUEUE_TASK ∧
    (ActionCreators.enqueueTask args).payload = args ∧
    (ActionCreators.clearAllState args).type = ActionType.CLEAR_ALL_STATE ∧
    (ActionCreators.clearAllState args).payload = args := by
  refine ⟨rfl, rfl, rfl, rfl, rfl, rfl, rfl, rfl, rfl, rfl,
    rfl, rfl, rfl, rfl, rfl, rfl, rfl, rfl, rfl, rfl⟩

/-- C2: setCurrentUser updates the in-memory cache synchronously, before
the persistent write settles (the persistent slot still holds its old
value after the synchronous part), and a read of the current identity
issued at that point returns the new user with an empty effect trace (no
persistent-store access) and unchanged state. -/
theorem C2_set_current_user_read_your_writes {U : Type} (toJSON : U → UserData)
    (fromJSON : UserData → U) (s : CoordState U) (u : U) :
    (setCurrentUserSync toJSON s u).1.currentUserCache = some u ∧
    (setCurrentUserSync toJSON s u).1.storage = s.storage ∧
    currentUser fromJSON (setCurrentUserSync toJSON s u).1 =
      (Except.ok (some u), (setCurrentUserSync toJSON s u).1, []) ∧
    currentUserAsync fromJSON (setCurrentUserSync toJSON s u).1 =
      (some u, (setCurrentUserSync toJSON s u).1, []) := by
  refine ⟨rfl, rfl, rfl, rfl⟩

/-- C5: calling the synchronous read entry point with an unpopulated
memory cache, `cacheMatchesDisk` false and an asynchronous-only store
raises an error, with an empty effect trace (the store is never read) and
the state unchanged. -/
theorem C5_sync_read_async_store_fails_fast {U : Type} (fromJSON : UserData → U)
    (s : CoordState U) (h1 : s.currentUserCache = none)
    (h2 : s.currentUserCacheMatchesDisk = false) (h3 : s.storageAsync = true) :
    currentUser fromJSON s =
      (Except.error "Cannot call currentUser() when using a platform with an async storage system. Call currentUserAsync() instead.", s, []) := by
  unfold currentUser
  rw [h1, h2, h3]
  simp

/-- C5 witness: the fail-fast error at a concrete unknown state over an
asynchronous-only store. -/
theorem C5_sync_read_async_store_fails_fast_witness :
    currentUser (U := UserData) id sAsyncOnly =
      (Except.error "Cannot call currentUser() when using a platform with an async storage system. Call currentUserAsync() instead.", sAsyncOnly, []) :=
  C5_sync_read_async_store_fails_fast id sAsyncOnly rfl rfl rfl

/-- C4 counterexample: at a state whose cached current user holds the
revocable session token of `dU`, the promise logOut returns does not
settle once the persistent-store removal settles: the server-side
invalidation request is chained into it as well. -/
theorem C4_counterexample :
    (logOut (U := UserData) id UserData.sessionToken (fun _ => true) sCached).2.2 ≠
      [AsyncOp.storeRemove] ∧
    (logOut (U := UserData) id UserData.sessionToken (fun _ => true) sCached).2.2 =
      [AsyncOp.storeRemove, AsyncOp.restLogout] := by
  exact ⟨by decide, by decide⟩

/-- C4 amended: when the current user read inside logOut yields a user
whose session token is truthy and of a revocable kind, the promise logOut
returns awaits the persistent-store removal and then the server-side
session invalidation request chained after it (so the invalidation's
outcome and timing do affect the settlement of that promise). -/
theorem C4_logout_promise_chains_invalidation {U : Type} (fromJSON : UserData → U)
    (getSessionToken : U → Option String) (isRevocableSession : String → Bool)
    (s : CoordState U) (cu : U) (tok : String)
    (h1 : (currentUserAsync fromJSON s).1 = some cu)
    (h2 : getSessionToken cu = some tok)
    (h3 : (tok ≠ "" && isRevocableSession tok) = true) :
    (logOut fromJSON getSessionToken isRevocableSession s).2.2 =
      [AsyncOp.storeRemove, AsyncOp.restLogout] := by
  rcases hq : currentUserAsync fromJSON s with ⟨cu2, s1, t1⟩
  rw [hq] at h1
  simp only at h1
  subst h1
  simp only [Bool.and_eq_true, decide_eq_true_eq] at h3
  simp [logOut, hq, h2, h3.1, h3.2, cacheSet]

/-- C4 amended witness: the chained invalidation at the concrete cached
state of the counterexample. -/
theorem C4_logout_promise_chains_invalidation_witness :
    (logOut (U := UserData) id UserData.sessionToken (fun _ => true) sCached).2.2 =
      [AsyncOp.storeRemove, AsyncOp.restLogout] :=
  C4_logout_promise_chains_invalidation id UserData.sessionToken (fun _ => true)
    sCached dU "r:tok" rfl rfl (by decide)

/-- C6 counterexample: a persisted snapshot whose legacy id field holds
the empty string (falsy in JavaScript) is loaded by currentUserAsync with
the legacy key still present: the legacy field is not renamed and it
remains in the loaded data. -/
theorem C6_counterexample :
    (currentUserAsync (U := UserData) id
        { currentUserCache := none, currentUserCacheMatchesDisk := false,
          storage := some dEmptyId, storageAsync := false,
          canUseCurrentUser := true }).1 = some (normalizeUserData dEmptyId) ∧
    (normalizeUserData dEmptyId).legacyId ≠ none := by
  exact ⟨rfl, by decide⟩

/-- C6 amended: both read paths load the stored snapshot through the same
normalisation, and that normalisation renames a legacy id field holding a
truthy (present, non-empty) value to objectId, overwriting any differing
objectId, and a truthy legacy session-token field to sessionToken,
removing the truthy legacy keys; a legacy field that is absent or holds
the empty string is left untouched, as is its target field. -/
theorem C6_legacy_field_translation {U : Type} (fromJSON : UserData → U)
    (s : CoordState U) (d : UserData) (hc : s.currentUserCache = none)
    (hm : s.currentUserCacheMatchesDisk = false) (hs : s.storage = some d) :
    ((currentUserAsync fromJSON s).1 = some (fromJSON (normalizeUserData d)) ∧
     (s.storageAsync = false →
       (currentUser fromJSON s).1 = Except.ok (some (fromJSON (normalizeUserData d))))) ∧
    (truthyStr d.legacyId = true →
      (normalizeUserData d).legacyId = none ∧
      (normalizeUserData d).objectId = d.legacyId) ∧
    (truthyStr d.legacyId = false →
      (normalizeUserData d).legacyId = d.legacyId ∧
      (normalizeUserData d).objectId = d.objectId) ∧
    (truthyStr d.legacySessionToken = true →
      (normalizeUserData d).legacySessionToken = none ∧
      (normalizeUserData d).sessionToken = d.legacySessionToken) ∧
    (truthyStr d.legacySessionToken = false →
      (normalizeUserData d).legacySessionToken = d.legacySessionToken ∧
      (normalizeUserData d).sessionToken = d.sessionToken) := by
  constructor
  · obtain ⟨c, m, st, a, cup⟩ := s
    cases hc
    cases hm
    cases hs
    exact ⟨rfl, fun h => by cases h; rfl⟩
  · obtain ⟨cn, li, oi, lt, st2⟩ := d
    refine ⟨?_, ?_, ?_, ?_⟩ <;>
      · intro h
        simp only [normalizeUserData] at *
        split_ifs at * <;> simp_all

/-- C6 amended witness: the translation at a concrete state whose store
holds a snapshot carrying truthy values in both legacy fields. -/
theorem C6_legacy_field_translation_witness :
    ((currentUserAsync (U := UserData) id sUnknown).1 =
       some (normalizeUserData dLegacy) ∧
     (sUnknown.storageAsync = false →
       (currentUser (U := UserData) id sUnknown).1 =
         Except.ok (some (normalizeUserData dLegacy)))) ∧
    (truthyStr dLegacy.legacyId = true →
      (normalizeUserData dLegacy).legacyId = none ∧
      (normalizeUserData dLegacy).objectId = dLegacy.legacyId) ∧
    (truthyStr dLegacy.legacyId = false →
      (normalizeUserData dLegacy).legacyId = dLegacy.legacyId ∧
      (normalizeUserData dLegacy).objectId = dLegacy.objectId) ∧
    (truthyStr dLegacy.legacySessionToken = true →
      (normalizeUserData dLegacy).legacySessionToken = none ∧
      (normalizeUserData dLegacy).sessionToken = dLegacy.legacySessionToken) ∧
    (truthyStr dLegacy.legacySessionToken = false →
      (normalizeUserData dLegacy).legacySessionToken = dLegacy.legacySessionToken ∧
      (normalizeUserData dLegacy).sessionToken = dLegacy.sessionToken) :=
  C6_legacy_field_translation id sUnknown dLegacy rfl rfl rfl

/-- C8: in the effect trace of every operation that updates the in-memory
current-user cache — setCurrentUser, either read path populating or
clearing the cache, logOut, _clearCache and _setCurrentUserCache — every
in-memory cache write is immediately preceded by the dispatch, through the
single redux dispatcher, of the action carrying the same value. -/
theorem C8_cache_updates_via_dispatcher {U : Type} (fromJSON : UserData → U)
    (toJSON : U → UserData) (getSessionToken : U → Option String)
    (isRevocableSession : String → Bool) (s : CoordState U) (u : U) :
    dispatchPrecedesWrite (setCurrentUserSync toJSON s u).2 ∧
    dispatchPrecedesWrite (currentUser fromJSON s).2.2 ∧
    dispatchPrecedesWrite (currentUserAsync fromJSON s).2.2 ∧
    dispatchPrecedesWrite (logOut fromJSON getSessionToken isRevocableSession s).2.1 ∧
    dispatchPrecedesWrite (ParseUser_clearCache s).2 ∧
    dispatchPrecedesWrite (ParseUser_setCurrentUserCache s u).2 := by
  refine ⟨?_, ?_, ?_, ?_, ?_, ?_⟩
  · simp [setCurrentUserSync, cacheSet, dispatchPrecedesWrite]
  · obtain ⟨c, m, st, a, cup⟩ := s
    cases c <;> cases m <;> cases a <;> cases st <;>
      simp [currentUser, cacheSet, dispatchPrecedesWrite]
  · obtain ⟨c, m, st, a, cup⟩ := s
    cases c <;> cases m <;> cases st <;>
      simp [currentUserAsync, cacheSet, dispatchPrecedesWrite]
  · rw [logOut_trace]
    obtain ⟨c, m, st, a, cup⟩ := s
    cases c <;> cases m <;> cases st <;>
      simp [currentUserAsync, cacheSet, dispatchPrecedesWrite]
  · simp [ParseUser_clearCache, cacheSet, dispatchPrecedesWrite]
  · simp [ParseUser_setCurrentUserCache, cacheSet, dispatchPrecedesWrite]

/-- C9: whenever current-user use is disabled, ParseUser.current returns
null and ParseUser.currentAsync resolves with null, each with an empty
effect trace and unchanged state (no persistent-store access), while
ParseUser.become and ParseUser.logOut raise an error immediately instead
of contacting the server or the store. -/
theorem C9_disabled_current_user {U : Type} (fromJSON : UserData → U)
    (toJSON : U → UserData) (getSessionToken : U → Option String)
    (isRevocableSession : String → Bool) (s : CoordState U) (fetched : U)
    (h : s.canUseCurrentUser = false) :
    ParseUser_current fromJSON s = (Except.ok none, s, []) ∧
    ParseUser_currentAsync fromJSON s = (none, s, []) ∧
    ParseUser_become toJSON fetched s =
      Except.error "It is not memory-safe to become a user in a server environment" ∧
    ParseUser_logOut fromJSON getSessionToken isRevocableSession s =
      Except.error "There is no current user user on a node.js server environment." := by
  simp [ParseUser_current, ParseUser_currentAsync, ParseUser_become,
    ParseUser_logOut, h]

/-- C9 witness: the disabled behaviour at a concrete disabled state whose
cache and store are both populated. -/
theorem C9_disabled_current_user_witness :
    ParseUser_current (U := UserData) id sDisabled = (Except.ok none, sDisabled, []) ∧
    ParseUser_currentAsync (U := UserData) id sDisabled = (none, sDisabled, []) ∧
    ParseUser_become (U := UserData) id dU sDisabled =
      Except.error "It is not memory-safe to become a user in a server environment" ∧
    ParseUser_logOut (U := UserData) id UserData.sessionToken (fun _ => true) sDisabled =
      Except.error "There is no current user user on a node.js server environment." :=
  C9_disabled_current_user id id UserData.sessionToken (fun _ => true) sDisabled dU rfl

/-- The last element of a list with its last element modified. -/
theorem getLast?_modifyLast {β : Type} (f : β → β) (l : List β) :
    (modifyLast f l).getLast? = l.getLast?.map f := by
  induction l with
  | nil => rfl
  | cons a t ih =>
    cases t with
    | nil => rfl
    | cons b t2 =>
      cases t2 with
      | nil => rfl
      | cons e t3 =>
        simpa [modifyLast, List.getLast?_cons_cons] using ih

/-- C10: the password is not retained in local state. The continuation
signUp runs after a successful save leaves no password in the server
snapshot; the continuation logIn runs on the login response leaves no
password in the server snapshot and no pending operations for the
username and password attributes in the top pending set. -/
theorem C10_no_password_retained {α op : Type} (u : UserObj α op)
    (response : String → Option (Option α)) :
    (signUpAfterSave u).serverData "password" = none ∧
    (logInAfterResponse response u).serverData "password" = none ∧
    topPending (logInAfterResponse response u) "password" = none ∧
    topPending (logInAfterResponse response u) "username" = none := by
  refine ⟨by simp [signUpAfterSave, finishFetch],
    by simp [logInAfterResponse, finishFetch, setPendingOp], ?_, ?_⟩ <;>
  · simp only [logInAfterResponse, topPending, finishFetch, setPendingOp,
      getLast?_modifyLast]
    cases hp : u.pendingOps.getLast? <;> simp

end Parse
